import Mathlib

/-!
Verification of the MCP modular-architecture server core.

This file is a shallow embedding, in Lean 4, of the parts of the repository
that the specification's claims are about:

* `src/mcp/schemas/tool_schemas.py` — `ToolSchema.validate_input` and
  `ToolSchema._check_type`;
* `src/mcp/tools/base_tool.py` — `BaseTool.execute`;
* `src/mcp/tool_registry.py` (and its structurally identical resource and
  prompt twins) — `register` / `unregister` / `get` / `__contains__`;
* `src/mcp/server.py` — `MCPServer.initialize`, `execute_tool`,
  `read_resource`, `get_prompt_messages`;
* `src/transport/transport_handler.py` and
  `src/transport/transport_message_handlers.py` — message routing;
* `src/transport/stdio_transport.py` — `receive_message` and `run_server`.

Python runtime values are modelled by the inductive `PyVal`; a Python `dict`
is a key-ordered association list (CPython dicts preserve insertion order);
a raised exception is an `Except.error` carrying `str(exception)`; functions
that in Python may raise are given `Except` result types, and the
never-raise boundary functions (`execute`, `execute_tool`, `handle_message`,
`receive_message`) have plain, total result types, mirroring the try/except
blocks that make them total in the source.
-/

namespace MCPSpec

/-- The subset of Python runtime values the MCP core manipulates.
`float` carries a rational stand-in: no claim computes with floats, only the
runtime type tag and truthiness of a float are ever inspected. -/
inductive PyVal where
  | none
  | bool (b : Bool)
  | int (n : Int)
  | float (q : Rat)
  | str (s : String)
  | list (xs : List PyVal)
  | dict (entries : List (String × PyVal))
deriving Repr

/-- Entries of a Python dict with string keys, in insertion order. -/
abbrev PyDict := List (String × PyVal)

/-- `d.get(k)`: the value stored at `k`, or Python `None` when the key is
absent (CPython's `dict.get` default). -/
def pyGet (d : PyDict) (k : String) : PyVal :=
  match d.lookup k with
  | Option.some v => v
  | Option.none => PyVal.none

/-- `d.get(k, default)`: the value stored at `k`, or `default` when absent. -/
def pyGetD (d : PyDict) (k : String) (default : PyVal) : PyVal :=
  match d.lookup k with
  | Option.some v => v
  | Option.none => default

/-- `k in d`: Python dict key membership. -/
def hasKey (d : PyDict) (k : String) : Bool :=
  (d.lookup k).isSome

/-- Python truthiness (`bool(v)`): `None`, `False`, zero numbers, and empty
strings/containers are falsy. -/
def pyFalsy : PyVal → Bool
  | PyVal.none => true
  | PyVal.bool b => !b
  | PyVal.int n => n == 0
  | PyVal.float q => q == 0
  | PyVal.str s => s.isEmpty
  | PyVal.list xs => xs.isEmpty
  | PyVal.dict es => es.isEmpty

/-- `v is None`. -/
def pyIsNone : PyVal → Bool
  | PyVal.none => true
  | _ => false

/-- Model of Python `str(v)` as used in the router's f-string
`f"Unknown method: {method}"`.  Scalars are rendered as CPython renders
them; the rendering of containers is abstracted (no routed method is a
container, and no claim inspects a container's rendering). -/
def pyToStr : PyVal → String
  | PyVal.none => "None"
  | PyVal.bool b => if b then "True" else "False"
  | PyVal.int n => toString n
  | PyVal.float q => toString q
  | PyVal.str s => s
  | PyVal.list _ => "<list>"
  | PyVal.dict _ => "<dict>"

/-- Python `v == s` for a string literal `s`: only a `str` value can compare
equal to a string (none of the types involved overloads `__eq__`). -/
def pyEqStr (v : PyVal) (s : String) : Bool :=
  match v with
  | PyVal.str t => t == s
  | _ => false

/-! ## `src/mcp/schemas/tool_schemas.py` -/

/-- `ToolSchema` (`tool_schemas.py`).  `input_schema` is a raw dict in the
source; here it is pre-split into the two components `validate_input` reads:
`required = input_schema.get('required', [])` and
`properties = input_schema.get('properties', {})`, where each property is
mapped to its `.get('type')` result (`Option.none` when the property dict
declares no `type`).  `output_schema` is never consulted by any claim and is
elided. -/
structure ToolSchema where
  name : String
  description : String
  required : List String
  properties : List (String × Option String)
deriving Repr

/-- `ToolSchema._check_type` (`tool_schemas.py` lines 81–97).  The mapping
dict lookup returning `None` for an unknown tag yields `True`.  CPython's
`isinstance` treats `bool` as a subclass of `int`, so a `bool` value passes
the `'number'` and `'integer'` checks as well as `'boolean'`. -/
def check_type (value : PyVal) (expected_type : String) : Bool :=
  if expected_type = "string" then
    match value with | PyVal.str _ => true | _ => false
  else if expected_type = "number" then
    match value with
    | PyVal.int _ => true | PyVal.float _ => true | PyVal.bool _ => true
    | _ => false
  else if expected_type = "integer" then
    match value with | PyVal.int _ => true | PyVal.bool _ => true | _ => false
  else if expected_type = "boolean" then
    match value with | PyVal.bool _ => true | _ => false
  else if expected_type = "object" then
    match value with | PyVal.dict _ => true | _ => false
  else if expected_type = "array" then
    match value with | PyVal.list _ => true | _ => false
  else
    true

/-- `ToolSchema.validate_input` (`tool_schemas.py` lines 52–79): every
required field must be a key of `params`, and every param whose key is
declared in `properties` with a truthy (non-`None`, non-empty) `type` tag
must pass `_check_type`. -/
def ToolSchema.validate_input (schema : ToolSchema) (params : PyDict) : Bool :=
  schema.required.all (fun field => hasKey params field) &&
  params.all (fun p =>
    match schema.properties.lookup p.1 with
    | Option.none => true
    | Option.some tagOpt =>
      match tagOpt with
      | Option.none => true
      | Option.some tag => if tag.isEmpty then true else check_type p.2 tag)

/-! ## `src/mcp/tools/base_tool.py` -/

/-- `BaseTool` (`base_tool.py`): a schema plus the abstract
`_execute_impl`.  An implementation that raises is modelled by
`Except.error (str e)`. -/
structure BaseTool where
  schema : ToolSchema
  execute_impl : PyDict → Except String PyVal

/-- `BaseTool.name` property. -/
def BaseTool.name (t : BaseTool) : String := t.schema.name

/-- `BaseTool.execute` (`base_tool.py` lines 58–100): validate, then run the
implementation inside try/except; every outcome is a dict value. -/
def BaseTool.execute (t : BaseTool) (params : PyDict) : PyDict :=
  if !(t.schema.validate_input params) then
    [("success", PyVal.bool false),
     ("error", PyVal.str ("Invalid parameters for tool " ++ t.name))]
  else
    match t.execute_impl params with
    | Except.ok result =>
      [("success", PyVal.bool true), ("result", result)]
    | Except.error e =>
      [("success", PyVal.bool false), ("error", PyVal.str e)]

/-! ## Registries (`src/mcp/tool_registry.py`, `resource_registry.py`,
`prompt_registry.py`)

The three registry classes are line-for-line structural twins over their
entity type: a dict from the entity's identity key (tool name / resource
uri / prompt name) to the entity, with `register` / `unregister` / `get` /
`__contains__` / `clear` / `__len__`.  They are embedded once, generically
over the entity type `α` and the identity-key function.  The human-readable
messages carried by the raised `ResourceAlreadyExistsError` /
`ResourceNotFoundError` exceptions (and the `(details: ...)` suffix that
`BaseApplicationError.__str__` appends) are not inspected by any claim and
are elided: the error kind alone is modelled. -/

/-- The two exception kinds a registry raises. -/
inductive RegError where
  | alreadyExists
  | notFound
deriving Repr, DecidableEq

/-- A registry's state: the backing dict, an insertion-ordered association
list with (by construction) unique keys. -/
structure Registry (α : Type) where
  entries : List (String × α)

/-- `key in self._entities`. -/
def Registry.containsKey {α : Type} (r : Registry α) (k : String) : Bool :=
  (r.entries.lookup k).isSome

/-- `register(entity)` (`tool_registry.py` lines 42–61): raise
`AlreadyExists` if the identity key is present, otherwise insert (CPython
dict insertion appends in iteration order). -/
def Registry.register {α : Type} (key : α → String) (e : α) (r : Registry α) :
    Except RegError (Registry α) :=
  if r.containsKey (key e) then
    Except.error RegError.alreadyExists
  else
    Except.ok ⟨r.entries ++ [(key e, e)]⟩

/-- `unregister(key)` (`tool_registry.py` lines 63–80): raise `NotFound` if
the key is absent, otherwise delete it. -/
def Registry.unregister {α : Type} (k : String) (r : Registry α) :
    Except RegError (Registry α) :=
  if !(r.containsKey k) then
    Except.error RegError.notFound
  else
    Except.ok ⟨r.entries.filter (fun p => p.1 ≠ k)⟩

/-- `get(key)` (`tool_registry.py` lines 82–103): raise `NotFound` if the
key is absent, otherwise return the stored entity. -/
def Registry.get {α : Type} (k : String) (r : Registry α) : Except RegError α :=
  match r.entries.lookup k with
  | Option.some e => Except.ok e
  | Option.none => Except.error RegError.notFound

/-- `len(registry)`. -/
def Registry.size {α : Type} (r : Registry α) : Nat := r.entries.length

/-! ## Resources and prompts (`base_resource.py`, `base_prompt.py`)

Only the identity key and the fallible operation the server invokes are
needed by the claims; the metadata accessors are elided. -/

/-- `BaseResource`: identified by `uri`; `read()` may raise. -/
structure BaseResource where
  uri : String
  read : Except String PyDict

/-- `BasePrompt`: identified by `name`; `get_messages(arguments)` may raise
(e.g. a missing required argument). -/
structure BasePrompt where
  name : String
  get_messages : PyDict → Except String PyVal

/-! ## `src/mcp/server.py` -/

/-- `MCPServer` state: the three registries and the `_initialized` flag.
`config_name` / `config_version` model the results of the two
`ConfigManager` lookups `config.get('mcp.server.name', 'MCP Server')` and
`config.get('mcp.server.version', '1.0.0')` — configuration loading is an
external collaborator of the core. -/
structure MCPServer where
  tool_registry : Registry BaseTool
  resource_registry : Registry BaseResource
  prompt_registry : Registry BasePrompt
  initialized : Bool
  config_name : String
  config_version : String

/-- A server as `MCPServer.__init__` leaves it: empty registries,
`_initialized = False`, default configuration. -/
def freshServer : MCPServer :=
  { tool_registry := ⟨[]⟩
    resource_registry := ⟨[]⟩
    prompt_registry := ⟨[]⟩
    initialized := false
    config_name := "MCP Server"
    config_version := "1.0.0" }

/-- The `for entity in entities: try register except log-and-continue` loop
bodies of `MCPServer.initialize`: each entity is registered individually and
a registration failure leaves the registry as it was. -/
def registerAll {α : Type} (key : α → String) (r : Registry α)
    (es : List α) : Registry α :=
  es.foldl (fun acc e =>
    match Registry.register key e acc with
    | Except.ok acc2 => acc2
    | Except.error _ => acc) r

/-- `MCPServer.initialize(tools?, resources?, prompts?)` (`server.py` lines
47–111), named `initServer` here: an already-initialized server returns
immediately (warning only); otherwise every provided entity is registered
individually with failures caught, and `_initialized` is then set to `True`
unconditionally.  (`Option.none` models passing no list; Python treats
`None` and `[]` alike via `if tools:`, and both register nothing.) -/
def MCPServer.initServer (s : MCPServer) (tools : Option (List BaseTool))
    (resources : Option (List BaseResource))
    (prompts : Option (List BasePrompt)) : MCPServer :=
  if s.initialized then s
  else
    { s with
      tool_registry :=
        registerAll BaseTool.name s.tool_registry (tools.getD [])
      resource_registry :=
        registerAll BaseResource.uri s.resource_registry (resources.getD [])
      prompt_registry :=
        registerAll BasePrompt.name s.prompt_registry (prompts.getD [])
      initialized := true }

/-- `MCPServer.execute_tool` (`server.py` lines 205–245).  The tool name
arrives from the wire as an arbitrary Python value; a non-`str` name is a
member of no registry (the dict is keyed by tool-name strings), so the
lookup raises `NotFound`.  Any exception from the lookup is caught and
converted to `{'success': False, 'error': str(e)}`; the claims never
inspect the not-found message text, so it is rendered abstractly. -/
def MCPServer.execute_tool (s : MCPServer) (tool_name : PyVal)
    (params : PyDict) : PyDict :=
  if !s.initialized then
    [("success", PyVal.bool false),
     ("error", PyVal.str "Server not initialized")]
  else
    match (match tool_name with
           | PyVal.str nm => Registry.get nm s.tool_registry
           | _ => Except.error RegError.notFound) with
    | Except.ok tool => tool.execute params
    | Except.error _ =>
      [("success", PyVal.bool false),
       ("error", PyVal.str ("Tool " ++ pyToStr tool_name
          ++ " not found in registry"))]

/-- `MCPServer.read_resource` (`server.py` lines 247–278).  Note the
uninitialized branch returns `{'error': 'Server not initialized'}` with no
`success` key, unlike `execute_tool` and `get_prompt_messages`. -/
def MCPServer.read_resource (s : MCPServer) (resource_uri : PyVal) : PyDict :=
  if !s.initialized then
    [("error", PyVal.str "Server not initialized")]
  else
    match (match resource_uri with
           | PyVal.str u => Registry.get u s.resource_registry
           | _ => Except.error RegError.notFound) with
    | Except.ok resource =>
      match resource.read with
      | Except.ok content => content
      | Except.error e =>
        [("uri", resource_uri), ("error", PyVal.str e)]
    | Except.error _ =>
      [("uri", resource_uri),
       ("error", PyVal.str ("Resource " ++ pyToStr resource_uri
          ++ " not found in registry"))]

/-- `MCPServer.get_prompt_messages` (`server.py` lines 280–318). -/
def MCPServer.get_prompt_messages (s : MCPServer) (prompt_name : PyVal)
    (arguments : PyDict) : PyDict :=
  if !s.initialized then
    [("success", PyVal.bool false),
     ("error", PyVal.str "Server not initialized")]
  else
    match (match prompt_name with
           | PyVal.str nm => Registry.get nm s.prompt_registry
           | _ => Except.error RegError.notFound) with
    | Except.ok prompt =>
      match prompt.get_messages arguments with
      | Except.ok messages =>
        [("success", PyVal.bool true), ("prompt", prompt_name),
         ("messages", messages)]
      | Except.error e =>
        [("success", PyVal.bool false), ("error", PyVal.str e)]
    | Except.error _ =>
      [("success", PyVal.bool false),
       ("error", PyVal.str ("Prompt " ++ pyToStr prompt_name
          ++ " not found in registry"))]

/-- `MCPServer.get_info` (`server.py` lines 340–362): safe to call in any
state. -/
def MCPServer.get_info (s : MCPServer) : PyDict :=
  [("name", PyVal.str s.config_name),
   ("version", PyVal.str s.config_version),
   ("stage", PyVal.str "Stage 3 - Tools, Resources, and Prompts"),
   ("initialized", PyVal.bool s.initialized),
   ("tool_count", PyVal.int s.tool_registry.size),
   ("resource_count", PyVal.int s.resource_registry.size),
   ("prompt_count", PyVal.int s.prompt_registry.size),
   ("capabilities", PyVal.dict
     [("tools", PyVal.bool true),
      ("resources", PyVal.bool true),
      ("prompts", PyVal.bool true)])]

/-! ## `src/transport/transport_message_handlers.py`

Each handler may raise (the argument-presence `ValueError`s, or Python
`AttributeError` when `params` is not a dict and `.get` is called on it);
`Except.error` carries `str(exception)`.  Handlers that mutate the server
(`server.initialize`) return the new server state alongside their result. -/

/-- `MessageHandlers.handle_server_info`. -/
def handle_server_info (server : MCPServer) : Except String PyVal :=
  Except.ok (PyVal.dict server.get_info)

/-- `MessageHandlers.handle_server_initialize`: calls
`server.initialize()` with no entity lists and reports
`{"status": "initialized"}`. -/
def handle_server_init (server : MCPServer) :
    Except String (PyVal × MCPServer) :=
  Except.ok (PyVal.dict [("status", PyVal.str "initialized")],
             server.initServer Option.none Option.none Option.none)

/-- `MessageHandlers.handle_tool_execute` (`transport_message_handlers.py`
lines 31–39): `params.get("name")` / `params.get("parameters", {})`, raise
`ValueError("Tool name is required")` on a falsy name, else delegate.  When
`params` is not a dict, the very first `.get` raises `AttributeError`; the
claims never inspect that message, so it is rendered abstractly.  A
non-dict `parameters` value reaching `tool.execute` would raise inside
validation and be caught there; it is modelled by the empty dict (no claim
exercises it). -/
def handle_tool_execute (server : MCPServer) (params : PyVal) :
    Except String PyVal :=
  match params with
  | PyVal.dict entries =>
    let tool_name := pyGet entries "name"
    let tool_params :=
      match pyGetD entries "parameters" (PyVal.dict []) with
      | PyVal.dict es => es
      | _ => []
    if pyFalsy tool_name then
      Except.error "Tool name is required"
    else
      Except.ok (PyVal.dict (server.execute_tool tool_name tool_params))
  | _ => Except.error "AttributeError: params has no attribute get"

/-- `MessageHandlers.handle_tool_list`. -/
def handle_tool_list (server : MCPServer) : Except String PyVal :=
  Except.ok (PyVal.dict
    [("tools", PyVal.list
       (server.tool_registry.entries.map (fun p => PyVal.str p.1)))])

/-- `MessageHandlers.handle_resource_read`: requires a truthy `params.uri`. -/
def handle_resource_read (server : MCPServer) (params : PyVal) :
    Except String PyVal :=
  match params with
  | PyVal.dict entries =>
    let uri := pyGet entries "uri"
    if pyFalsy uri then
      Except.error "Resource URI is required"
    else
      Except.ok (PyVal.dict (server.read_resource uri))
  | _ => Except.error "AttributeError: params has no attribute get"

/-- `MessageHandlers.handle_resource_list`. -/
def handle_resource_list (server : MCPServer) : Except String PyVal :=
  Except.ok (PyVal.dict
    [("resources", PyVal.list
       (server.resource_registry.entries.map (fun p => PyVal.str p.1)))])

/-- `MessageHandlers.handle_prompt_get_messages`: requires a truthy
`params.name`, passes `params.get("arguments", {})`. -/
def handle_prompt_get_messages (server : MCPServer) (params : PyVal) :
    Except String PyVal :=
  match params with
  | PyVal.dict entries =>
    let nm := pyGet entries "name"
    let arguments :=
      match pyGetD entries "arguments" (PyVal.dict []) with
      | PyVal.dict es => es
      | _ => []
    if pyFalsy nm then
      Except.error "Prompt name is required"
    else
      Except.ok (PyVal.dict (server.get_prompt_messages nm arguments))
  | _ => Except.error "AttributeError: params has no attribute get"

/-- `MessageHandlers.handle_prompt_list`. -/
def handle_prompt_list (server : MCPServer) : Except String PyVal :=
  Except.ok (PyVal.dict
    [("prompts", PyVal.list
       (server.prompt_registry.entries.map (fun p => PyVal.str p.1)))])

/-! ## `src/transport/transport_handler.py` -/

/-- `TransportHandler._success_response` (lines 131–152): the `id` key is
added exactly when `request_id is not None`. -/
def success_response (result : PyVal) (request_id : PyVal) : PyDict :=
  let response := [("success", PyVal.bool true), ("result", result)]
  if pyIsNone request_id then response else response ++ [("id", request_id)]

/-- `TransportHandler._error_response` (lines 154–182). -/
def error_response (message : String) (code : String)
    (request_id : PyVal) : PyDict :=
  let response :=
    [("success", PyVal.bool false),
     ("error", PyVal.dict
       [("code", PyVal.str code), ("message", PyVal.str message)])]
  if pyIsNone request_id then response else response ++ [("id", request_id)]

/-- Outcome of the router's `if method == ... / elif ... / else` chain plus
the surrounding try/except: a handler returned a value (possibly mutating
the server), the method was not in the table, or a handler raised. -/
inductive RouteResult where
  | ok (result : PyVal) (server : MCPServer)
  | unknownMethod
  | exn (msg : String)

/-- The routing chain of `TransportHandler.handle_message` (lines 96–118),
dispatching on the `method` value. -/
def route_method (server : MCPServer) (method : PyVal) (params : PyVal) :
    RouteResult :=
  let lift : Except String PyVal → RouteResult := fun r =>
    match r with
    | Except.ok v => RouteResult.ok v server
    | Except.error e => RouteResult.exn e
  if pyEqStr method "server.info" then lift (handle_server_info server)
  else if pyEqStr method "server.initialize" then
    match handle_server_init server with
    | Except.ok (v, s2) => RouteResult.ok v s2
    | Except.error e => RouteResult.exn e
  else if pyEqStr method "tool.execute" then
    lift (handle_tool_execute server params)
  else if pyEqStr method "tool.list" then lift (handle_tool_list server)
  else if pyEqStr method "resource.read" then
    lift (handle_resource_read server params)
  else if pyEqStr method "resource.list" then
    lift (handle_resource_list server)
  else if pyEqStr method "prompt.get_messages" then
    lift (handle_prompt_get_messages server params)
  else if pyEqStr method "prompt.list" then lift (handle_prompt_list server)
  else RouteResult.unknownMethod

/-- `True` exactly when the router's table has an entry for `method`. -/
def isRoutedMethod (method : PyVal) : Bool :=
  pyEqStr method "server.info" || pyEqStr method "server.initialize" ||
  pyEqStr method "tool.execute" || pyEqStr method "tool.list" ||
  pyEqStr method "resource.read" || pyEqStr method "resource.list" ||
  pyEqStr method "prompt.get_messages" || pyEqStr method "prompt.list"

/-- `TransportHandler.handle_message` (lines 38–129): extract
`method` / `params` (default `{}`) / `id`, route, and wrap the outcome;
an unknown method yields a `method_not_found` error envelope naming the
method, and any handler exception is caught and converted to an
`internal_error` envelope.  Returns the response together with the
(possibly updated) server state. -/
def handle_message (server : MCPServer) (message : PyDict) :
    PyDict × MCPServer :=
  let method := pyGet message "method"
  let params := pyGetD message "params" (PyVal.dict [])
  let request_id := pyGet message "id"
  match route_method server method params with
  | RouteResult.ok result s2 => (success_response result request_id, s2)
  | RouteResult.unknownMethod =>
    (error_response ("Unknown method: " ++ pyToStr method)
       "method_not_found" request_id, server)
  | RouteResult.exn e =>
    (error_response e "internal_error" request_id, server)

/-! ## `src/transport/stdio_transport.py`

A raw line of standard input is classified by what `line.strip()` and
`json.loads` (both Python standard library) do to it: it strips to the
empty string, or parses as a JSON message, or fails to parse.  End of
stream is `readline` returning the empty string, i.e. the input list being
exhausted. -/

/-- One raw line read from the input stream. -/
inductive RawLine where
  /-- A line whose content strips to the empty string (e.g. a bare
  newline). -/
  | blank
  /-- A line that parses as JSON, decoding to the message `m`. -/
  | jsonLine (m : PyVal)
  /-- A non-blank line that is not valid JSON; `err` is the decoder's
  detail string. -/
  | malformed (err : String)

/-- `STDIOTransport.receive_message` (`stdio_transport.py` lines 72–106):
end-of-stream returns `None`; a line stripping to empty returns `None`;
a JSON line returns the decoded message; a malformed line returns the
in-band parse-error dict.  The second component is the rest of the
stream. -/
def receive_message : List RawLine → Option PyVal × List RawLine
  | [] => (Option.none, [])
  | RawLine.blank :: rest => (Option.none, rest)
  | RawLine.jsonLine m :: rest => (Option.some m, rest)
  | RawLine.malformed err :: rest =>
    (Option.some (PyVal.dict
       [("error", PyVal.str "parse_error"),
        ("message", PyVal.str ("Invalid JSON received: " ++ err))]), rest)

/-- The message dict `receive_message` returns for a malformed line. -/
def parseErrorMessage (err : String) : PyVal :=
  PyVal.dict
    [("error", PyVal.str "parse_error"),
     ("message", PyVal.str ("Invalid JSON received: " ++ err))]

/-- The body of `STDIOTransport.run_server` (`stdio_transport.py` lines
108–140): repeatedly receive; a `None` from `receive_message` breaks the
loop; otherwise the message goes through the handler callback and the
response is sent.  The returned list is the sequence of responses written
to standard output. -/
def run_server (handler : PyVal → PyVal) : List RawLine → List PyVal
  | [] => []
  | l :: rest =>
    match (receive_message (l :: rest)).1 with
    | Option.none => []
    | Option.some m => handler m :: run_server handler rest

/-! ## Spec-side predicates and concrete instances

`claimedTypeMatches` / `claimedValidInput` follow the WORDS of the claim
about `validate_input` (string→text, number→integer-or-float,
integer→integer-only, boolean→bool, object→mapping, array→sequence); they
exist to be compared with the embedding of the source.
`amendedTypeMatches` states the mapping the code actually implements. -/

/-- Runtime-type recognizers used by the spec-side predicates. -/
def PyVal.isStr : PyVal → Bool | PyVal.str _ => true | _ => false

def PyVal.isInt : PyVal → Bool | PyVal.int _ => true | _ => false

def PyVal.isFloat : PyVal → Bool | PyVal.float _ => true | _ => false

def PyVal.isBool : PyVal → Bool | PyVal.bool _ => true | _ => false

def PyVal.isDict : PyVal → Bool | PyVal.dict _ => true | _ => false

def PyVal.isList : PyVal → Bool | PyVal.list _ => true | _ => false

/-- The type-tag mapping exactly as the claim states it: `integer` accepts
integers ONLY and `number` accepts integers or floats — no mention of
booleans outside the `boolean` row.  A tag outside the six known ones
constrains nothing (the claim is silent there; the companion implicit claim
says unknown tags are ignored). -/
def claimedTypeMatches (v : PyVal) (tag : String) : Bool :=
  if tag = "string" then v.isStr
  else if tag = "number" then v.isInt || v.isFloat
  else if tag = "integer" then v.isInt
  else if tag = "boolean" then v.isBool
  else if tag = "object" then v.isDict
  else if tag = "array" then v.isList
  else true

/-- The whole validation contract as the claim states it: every required
field present, and every present declared field matching under
`claimedTypeMatches`. -/
def claimedValidInput (schema : ToolSchema) (params : PyDict) : Bool :=
  schema.required.all (fun field => hasKey params field) &&
  params.all (fun p =>
    match schema.properties.lookup p.1 with
    | Option.none => true
    | Option.some tagOpt =>
      match tagOpt with
      | Option.none => true
      | Option.some tag => claimedTypeMatches p.2 tag)

/-- The mapping the source implements, differing from the claimed one only
where CPython's `bool`-is-an-`int` subclassing forces it: a `bool` also
passes the `number` and `integer` rows. -/
def amendedTypeMatches (v : PyVal) (tag : String) : Bool :=
  if tag = "string" then v.isStr
  else if tag = "number" then v.isInt || v.isFloat || v.isBool
  else if tag = "integer" then v.isInt || v.isBool
  else if tag = "boolean" then v.isBool
  else if tag = "object" then v.isDict
  else if tag = "array" then v.isList
  else true

/-- `True` exactly when `tag` is one of the six keys of the source's
`type_mapping` dict. -/
def knownTag (t : String) : Bool :=
  t == "string" || t == "number" || t == "integer" ||
  t == "boolean" || t == "object" || t == "array"

/-- ASCII-lowercasing, for comparing message strings up to letter case. -/
def asciiLower (s : String) : String := String.mk (s.data.map Char.toLower)

/-! ### Concrete entities used to witness the theorems -/

/-- A concrete tool in the shape of `echo_tool.py`: one required string
field `message`. -/
def echoSchema : ToolSchema :=
  { name := "echo"
    description := "Echo a message back"
    required := ["message"]
    properties := [("message", Option.some "string")] }

/-- The echo tool: implementation never raises. -/
def echoTool : BaseTool :=
  { schema := echoSchema
    execute_impl := fun params =>
      Except.ok (PyVal.dict [("echo", pyGet params "message")]) }

/-- A second tool with the SAME identity key `"echo"`, for duplicate
registration scenarios. -/
def echoTool2 : BaseTool :=
  { schema := { echoSchema with description := "A duplicate echo" }
    execute_impl := fun _ => Except.ok PyVal.none }

/-- A tool with a distinct name, no constraints, whose implementation
always raises. -/
def boomTool : BaseTool :=
  { schema :=
      { name := "boom"
        description := "Always raises"
        required := []
        properties := [] }
    execute_impl := fun _ => Except.error "boom failed" }

/-- A schema declaring `x : integer`, for the bool-versus-integer
counterexample. -/
def intSchema : ToolSchema :=
  { name := "intTool"
    description := "Declares one integer field"
    required := []
    properties := [("x", Option.some "integer")] }

/-- A schema with an unknown type tag and a property with no tag, for the
unknown-tag claim. -/
def oddSchema : ToolSchema :=
  { name := "oddTool"
    description := "Unknown and absent type tags"
    required := ["x"]
    properties := [("x", Option.some "timestamp"), ("y", Option.none)] }

/-- Parameters giving the oddly-tagged fields arbitrary container values. -/
def oddParams : PyDict :=
  [("x", PyVal.list []), ("y", PyVal.dict [("k", PyVal.int 3)])]

/-- A wire message whose method is routed by no table entry. -/
def bogusMessage : PyDict :=
  [("method", PyVal.str "bogus.thing"), ("id", PyVal.str "req-7")]

/-- A `tool.execute` request whose params carry no tool name. -/
def noNameMessage : PyDict :=
  [("method", PyVal.str "tool.execute"),
   ("params", PyVal.dict [("parameters", PyVal.dict [])])]

/-- A server that has gone through `initialize()` with no entities: empty
registries but `_initialized = True`. -/
def readyServer : MCPServer :=
  MCPServer.initServer freshServer Option.none Option.none Option.none

/-! ## General lemmas -/

/-- Appending a fresh key to an association list makes it found by
lookup. -/
theorem lookup_append_fresh {α : Type} (l : List (String × α)) (k : String)
    (e : α) (h : l.lookup k = Option.none) :
    (l ++ [(k, e)]).lookup k = Option.some e := by
  induction l with
  | nil => simp [List.lookup]
  | cons hd tl ih =>
    obtain ⟨a, b⟩ := hd
    rw [List.cons_append]
    rw [List.lookup_cons] at h ⊢
    cases hk : (k == a) with
    | true => rw [hk] at h; simp at h
    | false => rw [hk] at h; exact ih h

/-- Filtering out a key removes it from lookup's view. -/
theorem lookup_filter_out {α : Type} (l : List (String × α)) (k : String) :
    (l.filter (fun p => p.1 ≠ k)).lookup k = Option.none := by
  induction l with
  | nil => rfl
  | cons hd tl ih =>
    obtain ⟨a, b⟩ := hd
    by_cases ha : a = k
    · rw [List.filter_cons_of_neg (by simp [ha])]
      exact ih
    · rw [List.filter_cons_of_pos (by simp [ha]), List.lookup_cons]
      have hk : (k == a) = false := beq_eq_false_iff_ne.mpr (Ne.symm ha)
      rw [hk]
      exact ih

/-- A successful lookup exhibits a member of the list. -/
theorem mem_of_lookup_some {α : Type} {l : List (String × α)} {k : String}
    {v : α} (h : l.lookup k = Option.some v) : (k, v) ∈ l := by
  induction l with
  | nil => simp [List.lookup] at h
  | cons hd tl ih =>
    obtain ⟨a, b⟩ := hd
    rw [List.lookup_cons] at h
    cases hk : (k == a) with
    | true =>
      rw [hk] at h
      cases h
      cases beq_iff_eq.mp hk
      exact List.mem_cons_self _ _
    | false =>
      rw [hk] at h
      exact List.mem_cons_of_mem _ (ih h)

/-- The source's `_check_type` table is the claimed table amended by
CPython's bool-is-an-int subclassing. -/
theorem check_type_eq_amended (v : PyVal) (tag : String) :
    check_type v tag = amendedTypeMatches v tag := by
  unfold check_type amendedTypeMatches
  split_ifs <;> cases v <;> rfl

/-- A tag outside the `type_mapping` dict constrains nothing. -/
theorem check_type_unknownTag (v : PyVal) (t : String)
    (h : knownTag t = false) : check_type v t = true := by
  simp only [knownTag, Bool.or_eq_false_iff, beq_eq_false_iff_ne, ne_eq] at h
  obtain ⟨⟨⟨⟨⟨h1, h2⟩, h3⟩, h4⟩, h5⟩, h6⟩ := h
  unfold check_type
  rw [if_neg h1, if_neg h2, if_neg h3, if_neg h4, if_neg h5, if_neg h6]

/-- The empty tag (falsy in Python, so the check is skipped) constrains
nothing in the amended table either. -/
theorem amended_empty_tag (v : PyVal) : amendedTypeMatches v "" = true := by
  unfold amendedTypeMatches
  rw [if_neg (by decide), if_neg (by decide), if_neg (by decide),
      if_neg (by decide), if_neg (by decide), if_neg (by decide)]

/-! ## Claim theorems -/

/-- Claim C1 (confirmed): `BaseTool.execute` is a total function into
result dicts — no exception escapes.  When the schema rejects the
parameters the result is `{'success': False, 'error': msg}` where `msg` is
exactly the source's `"Invalid parameters for tool " + name`, which
mentions the tool's name and agrees letter-for-letter, up to ASCII case,
with the claim's quoted `"invalid parameters for tool <name>"`.  When the
execution logic raises with message `e`, the result is
`{'success': False, 'error': e}`; a normal return `r` yields
`{'success': True, 'result': r}`. -/
theorem execute_total_contract (t : BaseTool) (params : PyDict) :
    (t.schema.validate_input params = false →
      t.execute params =
        [("success", PyVal.bool false),
         ("error",
          PyVal.str ("Invalid parameters for tool " ++ t.name))] ∧
      (∃ pre suf,
        "Invalid parameters for tool " ++ t.name = pre ++ t.name ++ suf) ∧
      asciiLower ("Invalid parameters for tool " ++ t.name)
        = asciiLower ("invalid parameters for tool " ++ t.name)) ∧
    (∀ e, t.schema.validate_input params = true →
      t.execute_impl params = Except.error e →
      t.execute params =
        [("success", PyVal.bool false), ("error", PyVal.str e)]) ∧
    (∀ r, t.schema.validate_input params = true →
      t.execute_impl params = Except.ok r →
      t.execute params =
        [("success", PyVal.bool true), ("result", r)]) := by
  refine ⟨?_, ?_, ?_⟩
  · intro hv
    refine ⟨by simp [BaseTool.execute, hv],
            ⟨"Invalid parameters for tool ", "", by simp⟩, ?_⟩
    simp only [asciiLower, String.data_append, List.map_append]
    congr 1
  · intro e hv he
    simp [BaseTool.execute, hv, he]
  · intro r hv he
    simp [BaseTool.execute, hv, he]

/-- Witness for C1: the echo tool invoked without its required `message`
field yields the invalid-parameters error value, and a tool whose
implementation raises yields the in-band error value. -/
theorem execute_total_contract_witness :
    echoTool.execute [] =
      [("success", PyVal.bool false),
       ("error", PyVal.str "Invalid parameters for tool echo")] ∧
    boomTool.execute [] =
      [("success", PyVal.bool false), ("error", PyVal.str "boom failed")] := by
  constructor
  · exact ((execute_total_contract echoTool []).1 (by decide)).1
  · exact (execute_total_contract boomTool []).2.1 "boom failed"
      (by decide) rfl

/-- Claim C2, counterexample: the claim's type mapping says
`integer → integer-only`, but CPython's `isinstance(True, int)` is `True`,
so `validate_input` accepts a boolean for a field declared `integer` while
the claimed predicate rejects it: the claimed iff fails at
`params = {'x': True}` against a schema declaring `x : integer`. -/
theorem validate_input_bool_int_counterexample :
    intSchema.validate_input [("x", PyVal.bool true)] = true ∧
    claimedValidInput intSchema [("x", PyVal.bool true)] = false := by
  constructor <;> decide

/-- Claim C2 (corrected): `validate_input` returns `true` iff every
required field is present and every present field declared in `properties`
with some type tag matches the AMENDED mapping, in which — because CPython
makes `bool` a subclass of `int` — a boolean value also satisfies the
`number` and `integer` rows; an absent, empty, or unknown tag constrains
nothing.  (Totality — returning `false` rather than raising — holds by the
function's plain `Bool` type.) -/
theorem validate_input_amended_iff (schema : ToolSchema) (params : PyDict) :
    schema.validate_input params = true ↔
      ((∀ f ∈ schema.required, hasKey params f = true) ∧
       (∀ fv ∈ params, ∀ tag,
         schema.properties.lookup fv.1 = Option.some (Option.some tag) →
         amendedTypeMatches fv.2 tag = true)) := by
  unfold ToolSchema.validate_input
  rw [Bool.and_eq_true, List.all_eq_true, List.all_eq_true]
  constructor
  · rintro ⟨hreq, hfields⟩
    refine ⟨fun f hf => hreq f hf, ?_⟩
    intro fv hfv tag htag
    have hbody := hfields fv hfv
    rw [htag] at hbody
    by_cases he : tag.isEmpty = true
    · have : tag = "" := (String.isEmpty_iff tag).mp he
      rw [this]
      exact amended_empty_tag fv.2
    · rw [← check_type_eq_amended]
      simpa [he] using hbody
  · rintro ⟨hreq, hfields⟩
    refine ⟨fun f hf => hreq f hf, ?_⟩
    intro fv hfv
    cases hl : schema.properties.lookup fv.1 with
    | none => simp
    | some tagOpt =>
      cases tagOpt with
      | none => simp
      | some tag =>
        by_cases he : tag.isEmpty = true
        · simp [he]
        · simp only [he, if_false, check_type_eq_amended]
          simpa using hfields fv hfv tag hl

/-- Claim C9 (confirmed): a property entry whose declared tag is not one of
the six known tags — and likewise one declaring no tag at all — never
causes validation to fail: `_check_type` accepts every value for an
unrecognized tag, and when every property is unknown- or un-tagged,
`validate_input` degenerates to the required-fields presence check
alone. -/
theorem validate_input_ignores_unknown_tags (schema : ToolSchema)
    (params : PyDict)
    (h : schema.properties.all (fun p =>
      match p.2 with
      | Option.none => true
      | Option.some t => !knownTag t) = true) :
    schema.validate_input params
      = schema.required.all (fun field => hasKey params field) ∧
    ∀ (v : PyVal) (t : String), knownTag t = false →
      check_type v t = true := by
  constructor
  · unfold ToolSchema.validate_input
    have hB : params.all (fun p =>
        match schema.properties.lookup p.1 with
        | Option.none => true
        | Option.some tagOpt =>
          match tagOpt with
          | Option.none => true
          | Option.some tag =>
            if tag.isEmpty then true else check_type p.2 tag) = true := by
      rw [List.all_eq_true]
      intro p hp
      cases hl : schema.properties.lookup p.1 with
      | none => rfl
      | some tagOpt =>
        have hmem := mem_of_lookup_some hl
        have hprop := List.all_eq_true.mp h _ hmem
        cases tagOpt with
        | none => rfl
        | some t =>
          have hkt : knownTag t = false := by
            simpa using hprop
          by_cases he : t.isEmpty = true
          · simp [he]
          · simp only [he, if_false]
            simpa using check_type_unknownTag p.2 t hkt
    rw [hB, Bool.and_true]
  · exact fun v t ht => check_type_unknownTag v t ht

/-- Witness for C9: a schema tagging `x` with the unknown tag `timestamp`
and declaring `y` with no tag accepts a list for `x` and a dict for `y`;
validation reduces to the presence of the required field `x`. -/
theorem validate_input_ignores_unknown_tags_witness :
    oddSchema.validate_input oddParams = true := by
  rw [(validate_input_ignores_unknown_tags oddSchema oddParams (by decide)).1]
  decide

/-- Claim C5 (confirmed): the registry lifecycle invariants, generically
over the entity type and identity key — so they cover the tool, resource
and prompt registries at once.  After a successful `register(e)` with
identity `k`: `contains(k)` holds and `get(k)` returns that very entity;
registering any entity with the same identity fails with `AlreadyExists`
(and, the operation being rejected before any mutation, the stored entity
is untouched — `get(k)` still returns `e`); `unregister(k)` succeeds and
afterwards `contains(k)` is false; and `unregister` on any registry not
containing the key fails with `NotFound`. -/
theorem registry_lifecycle {α : Type} (key : α → String) (e : α)
    (r r2 : Registry α)
    (h : Registry.register key e r = Except.ok r2) :
    r2.containsKey (key e) = true ∧
    Registry.get (key e) r2 = Except.ok e ∧
    (∀ e2, key e2 = key e →
      Registry.register key e2 r2 = Except.error RegError.alreadyExists ∧
      Registry.get (key e) r2 = Except.ok e) ∧
    (∃ r3, Registry.unregister (key e) r2 = Except.ok r3 ∧
      r3.containsKey (key e) = false) ∧
    (∀ r0 : Registry α, r0.containsKey (key e) = false →
      Registry.unregister (key e) r0 = Except.error RegError.notFound) := by
  unfold Registry.register at h
  by_cases hc : r.containsKey (key e) = true
  · rw [if_pos hc] at h
    exact absurd h (by simp)
  · rw [if_neg hc] at h
    injection h with h2
    subst h2
    have hlook : r.entries.lookup (key e) = Option.none := by
      unfold Registry.containsKey at hc
      cases hll : r.entries.lookup (key e) with
      | none => rfl
      | some v => rw [hll] at hc; simp at hc
    have hfound := lookup_append_fresh r.entries (key e) e hlook
    have hcontains : Registry.containsKey ⟨r.entries ++ [(key e, e)]⟩ (key e)
        = true := by
      unfold Registry.containsKey
      rw [hfound]
      rfl
    have hget : Registry.get (key e) ⟨r.entries ++ [(key e, e)]⟩
        = Except.ok e := by
      unfold Registry.get
      rw [hfound]
    refine ⟨hcontains, hget, ?_, ?_, ?_⟩
    · intro e2 hk2
      refine ⟨?_, hget⟩
      unfold Registry.register
      rw [hk2, if_pos hcontains]
    · refine ⟨⟨(r.entries ++ [(key e, e)]).filter (fun p => p.1 ≠ key e)⟩,
        ?_, ?_⟩
      · unfold Registry.unregister
        rw [hcontains]
        rfl
      · unfold Registry.containsKey
        rw [lookup_filter_out]
        rfl
    · intro r0 h0
      unfold Registry.unregister
      rw [h0]
      rfl

/-- Witness for C5, at the tool registry: registering the echo tool into
the empty registry makes it found; a second registration under the same
name fails with `AlreadyExists`; unregistering an absent key fails with
`NotFound`. -/
theorem registry_lifecycle_witness :
    Registry.containsKey (⟨[("echo", echoTool)]⟩ : Registry BaseTool) "echo"
      = true ∧
    Registry.get "echo" (⟨[("echo", echoTool)]⟩ : Registry BaseTool)
      = Except.ok echoTool ∧
    Registry.register BaseTool.name echoTool2
        (⟨[("echo", echoTool)]⟩ : Registry BaseTool)
      = Except.error RegError.alreadyExists ∧
    Registry.unregister "echo" (⟨[]⟩ : Registry BaseTool)
      = Except.error RegError.notFound := by
  obtain ⟨h1, h2, h3, _, h5⟩ :=
    registry_lifecycle BaseTool.name echoTool ⟨[]⟩ ⟨[("echo", echoTool)]⟩ rfl
  exact ⟨h1, h2, (h3 echoTool2 rfl).1, h5 ⟨[]⟩ rfl⟩

/-- Claim C3, counterexample: on an uninitialized server,
`read_resource` returns `{'error': 'Server not initialized'}` — a dict
with NO `success` key at all, so the claimed
"dictionary carrying success=false" shape fails for `read_resource`. -/
theorem uninitialized_read_resource_counterexample :
    MCPServer.read_resource freshServer (PyVal.str "config://app")
      = [("error", PyVal.str "Server not initialized")] ∧
    hasKey (MCPServer.read_resource freshServer (PyVal.str "config://app"))
      "success" = false := by
  exact ⟨rfl, rfl⟩

/-- Claim C3 (corrected): on an uninitialized server, all three operations
return an in-band dict rather than raising, with error text
`"Server not initialized"` (capital S in the source); `execute_tool` and
`get_prompt_messages` carry `success = False`, but `read_resource` returns
only the `error` key and carries no `success` field. -/
theorem uninitialized_operations_amended (s : MCPServer)
    (h : s.initialized = false)
    (tool_name resource_uri prompt_name : PyVal)
    (params arguments : PyDict) :
    s.execute_tool tool_name params =
      [("success", PyVal.bool false),
       ("error", PyVal.str "Server not initialized")] ∧
    s.read_resource resource_uri =
      [("error", PyVal.str "Server not initialized")] ∧
    hasKey (s.read_resource resource_uri) "success" = false ∧
    s.get_prompt_messages prompt_name arguments =
      [("success", PyVal.bool false),
       ("error", PyVal.str "Server not initialized")] := by
  have hr : s.read_resource resource_uri =
      [("error", PyVal.str "Server not initialized")] := by
    simp [MCPServer.read_resource, h]
  refine ⟨by simp [MCPServer.execute_tool, h], hr, ?_,
    by simp [MCPServer.get_prompt_messages, h]⟩
  rw [hr]
  rfl

/-- Witness for C3's amended theorem: a freshly constructed server. -/
theorem uninitialized_operations_amended_witness :
    MCPServer.execute_tool freshServer (PyVal.str "calculator") [] =
      [("success", PyVal.bool false),
       ("error", PyVal.str "Server not initialized")] ∧
    MCPServer.get_prompt_messages freshServer (PyVal.str "summarize") [] =
      [("success", PyVal.bool false),
       ("error", PyVal.str "Server not initialized")] := by
  obtain ⟨h1, _, _, h4⟩ :=
    uninitialized_operations_amended freshServer rfl
      (PyVal.str "calculator") (PyVal.str "config://app")
      (PyVal.str "summarize") [] []
  exact ⟨h1, h4⟩

/-- Folding registrations over an appended list registers the first part,
then the second. -/
theorem registerAll_append {α : Type} (key : α → String) (r : Registry α)
    (l1 l2 : List α) :
    registerAll key r (l1 ++ l2)
      = registerAll key (registerAll key r l1) l2 := by
  unfold registerAll
  rw [List.foldl_append]

/-- A registration that fails (duplicate identity key) leaves the registry
unchanged and the remaining registrations proceed as if the failed entity
had not been in the list. -/
theorem registerAll_skip_dup {α : Type} (key : α → String) (r : Registry α)
    (bad : α) (l : List α) (h : r.containsKey (key bad) = true) :
    registerAll key r (bad :: l) = registerAll key r l := by
  unfold registerAll
  rw [List.foldl_cons]
  congr 1
  show (match Registry.register key bad r with
        | Except.ok acc2 => acc2
        | Except.error _ => r) = r
  unfold Registry.register
  rw [if_pos h]

/-- Claim C7 (confirmed): `initialize` on an uninitialized server registers
each provided entity individually; a single registration failure — here a
tool whose identity key is already taken when its turn comes — is swallowed
and the rest of the list is still processed, the overall outcome being
exactly as if the failing entity had not been supplied; and the
`initialized` flag ends up `true` on every call, no matter what was
supplied or how many registrations failed. -/
theorem init_partial_failure_tolerance (s : MCPServer)
    (pre post : List BaseTool) (bad : BaseTool)
    (resources : Option (List BaseResource))
    (prompts : Option (List BasePrompt))
    (hdup : (registerAll BaseTool.name s.tool_registry pre).containsKey
      bad.name = true) :
    (∀ (s2 : MCPServer) ts rs ps,
      (MCPServer.initServer s2 ts rs ps).initialized = true) ∧
    MCPServer.initServer s (Option.some (pre ++ bad :: post))
        resources prompts
      = MCPServer.initServer s (Option.some (pre ++ post))
          resources prompts := by
  constructor
  · intro s2 ts rs ps
    unfold MCPServer.initServer
    by_cases h2 : s2.initialized = true
    · rw [if_pos h2]
      exact h2
    · rw [if_neg h2]
  · by_cases hi : s.initialized = true
    · simp [MCPServer.initServer, hi]
    · have hreg : registerAll BaseTool.name s.tool_registry
          (pre ++ bad :: post)
          = registerAll BaseTool.name s.tool_registry (pre ++ post) := by
        rw [registerAll_append, registerAll_skip_dup _ _ _ _ hdup,
            ← registerAll_append]
      simp [MCPServer.initServer, hi, hreg]

/-- Witness for C7: initializing a fresh server with
`[echo, duplicate-echo, boom]` sets the flag and equals initializing with
`[echo, boom]` — the duplicate is skipped, the boom tool still
registered. -/
theorem init_partial_failure_tolerance_witness :
    (MCPServer.initServer freshServer
        (Option.some [echoTool, echoTool2, boomTool])
        Option.none Option.none).initialized = true ∧
    MCPServer.initServer freshServer
        (Option.some [echoTool, echoTool2, boomTool])
        Option.none Option.none
      = MCPServer.initServer freshServer
          (Option.some [echoTool, boomTool]) Option.none Option.none := by
  obtain ⟨hflag, heq⟩ :=
    init_partial_failure_tolerance freshServer [echoTool] [boomTool]
      echoTool2 Option.none Option.none rfl
  exact ⟨hflag freshServer _ Option.none Option.none, heq⟩

/-- Claim C8 (confirmed): `initialize` is idempotent — on an
already-initialized server a second call with any arguments returns the
server completely unchanged (no exception, flag still `true`, no entity
registered or duplicated). -/
theorem init_idempotent (s : MCPServer) (h : s.initialized = true)
    (tools : Option (List BaseTool))
    (resources : Option (List BaseResource))
    (prompts : Option (List BasePrompt)) :
    MCPServer.initServer s tools resources prompts = s ∧
    (MCPServer.initServer s tools resources prompts).initialized = true ∧
    (MCPServer.initServer s tools resources prompts).tool_registry.entries
      = s.tool_registry.entries := by
  have he : MCPServer.initServer s tools resources prompts = s := by
    unfold MCPServer.initServer
    rw [if_pos h]
  exact ⟨he, by rw [he]; exact h, by rw [he]⟩

/-- Witness for C8: re-initializing an initialized server, even offering a
tool, changes nothing. -/
theorem init_idempotent_witness :
    MCPServer.initServer readyServer (Option.some [echoTool])
      Option.none Option.none = readyServer :=
  (init_idempotent readyServer rfl (Option.some [echoTool])
    Option.none Option.none).1

/-- Claim C4, counterexample: a whitespace-only line is NOT a case distinct
from end-of-stream: `receive_message` returns the same `None` sentinel for
a blank line as for stream close, and the run loop therefore terminates on
a blank line — dropping the rest of the stream — exactly as it does at end
of stream. -/
theorem receive_blank_line_counterexample :
    (receive_message [RawLine.blank]).1 = (receive_message []).1 ∧
    run_server id
      [RawLine.blank, RawLine.jsonLine (PyVal.dict bogusMessage)] = [] := by
  exact ⟨rfl, rfl⟩

/-- Claim C4 (corrected): `receive_message` yields only two result shapes,
not three — end-of-stream AND a whitespace-only line both return the `None`
sentinel, and the run loop breaks on either; a malformed-JSON line returns
the in-band `{error: 'parse_error', message: ...}` dict rather than
raising, and the run loop continues past it (the parse-error value is
passed to the handler like any message and the loop proceeds with the rest
of the stream). -/
theorem receive_and_run_loop_amended (rest : List RawLine) (m : PyVal)
    (err : String) (handler : PyVal → PyVal) :
    (receive_message []).1 = Option.none ∧
    (receive_message (RawLine.blank :: rest)).1 = Option.none ∧
    run_server handler (RawLine.blank :: rest) = [] ∧
    receive_message (RawLine.malformed err :: rest)
      = (Option.some (parseErrorMessage err), rest) ∧
    run_server handler (RawLine.malformed err :: rest)
      = handler (parseErrorMessage err) :: run_server handler rest ∧
    run_server handler (RawLine.jsonLine m :: rest)
      = handler m :: run_server handler rest := by
  exact ⟨rfl, rfl, rfl, rfl, rfl, rfl⟩

/-- An error envelope always carries `success = False`. -/
theorem error_response_get_success (msg code : String) (rid : PyVal) :
    pyGet (error_response msg code rid) "success" = PyVal.bool false := by
  unfold error_response
  cases hid : pyIsNone rid <;> rfl

/-- An error envelope always carries the `{code, message}` error dict. -/
theorem error_response_get_error (msg code : String) (rid : PyVal) :
    pyGet (error_response msg code rid) "error"
      = PyVal.dict [("code", PyVal.str code),
                    ("message", PyVal.str msg)] := by
  unfold error_response
  cases hid : pyIsNone rid <;> rfl

/-- An error envelope carries an `id` key exactly when the request id was
not `None`. -/
theorem error_response_hasKey_id (msg code : String) (rid : PyVal) :
    hasKey (error_response msg code rid) "id" = !(pyIsNone rid) := by
  unfold error_response
  cases hid : pyIsNone rid <;> rfl

/-- A method matched by none of the eight table entries routes to the
unknown-method outcome. -/
theorem route_unknown (server : MCPServer) (method params : PyVal)
    (h : isRoutedMethod method = false) :
    route_method server method params = RouteResult.unknownMethod := by
  simp only [isRoutedMethod, Bool.or_eq_false_iff] at h
  obtain ⟨⟨⟨⟨⟨⟨⟨h1, h2⟩, h3⟩, h4⟩, h5⟩, h6⟩, h7⟩, h8⟩ := h
  unfold route_method
  simp [h1, h2, h3, h4, h5, h6, h7, h8]

/-- Claim C6 (confirmed): a message whose `method` is none of the eight
routed method names gets the `method_not_found` error envelope — success
`False`, error code `method_not_found`, message naming the unknown method —
with the request id echoed exactly when a (non-`None`) id is present in the
request, and the server state untouched. -/
theorem unknown_method_envelope (server : MCPServer) (message : PyDict)
    (h : isRoutedMethod (pyGet message "method") = false) :
    (handle_message server message).1
      = error_response
          ("Unknown method: " ++ pyToStr (pyGet message "method"))
          "method_not_found" (pyGet message "id") ∧
    pyGet (handle_message server message).1 "success" = PyVal.bool false ∧
    pyGet (handle_message server message).1 "error"
      = PyVal.dict
          [("code", PyVal.str "method_not_found"),
           ("message", PyVal.str
             ("Unknown method: " ++ pyToStr (pyGet message "method")))] ∧
    hasKey (handle_message server message).1 "id"
      = !(pyIsNone (pyGet message "id")) ∧
    (handle_message server message).2 = server := by
  have hr := route_unknown server (pyGet message "method")
    (pyGetD message "params" (PyVal.dict [])) h
  have hresp : handle_message server message
      = (error_response
          ("Unknown method: " ++ pyToStr (pyGet message "method"))
          "method_not_found" (pyGet message "id"), server) := by
    simp only [handle_message, hr]
  rw [hresp]
  exact ⟨rfl, error_response_get_success _ _ _,
    error_response_get_error _ _ _, error_response_hasKey_id _ _ _, rfl⟩

/-- Witness for C6: the message `{"method": "bogus.thing", "id": "req-7"}`
gets the `method_not_found` envelope with its id echoed, against a fresh
server. -/
theorem unknown_method_envelope_witness :
    pyGet (handle_message freshServer bogusMessage).1 "success"
      = PyVal.bool false ∧
    pyGet (handle_message freshServer bogusMessage).1 "error"
      = PyVal.dict
          [("code", PyVal.str "method_not_found"),
           ("message", PyVal.str "Unknown method: bogus.thing")] ∧
    hasKey (handle_message freshServer bogusMessage).1 "id" = true := by
  obtain ⟨_, h2, h3, h4, _⟩ :=
    unknown_method_envelope freshServer bogusMessage rfl
  exact ⟨h2, h3, h4⟩

/-- Claim C10 (confirmed): a `tool.execute` request whose params carry a
missing, empty, or otherwise falsy tool name makes the handler raise
`ValueError("Tool name is required")`, which the router converts into the
`internal_error` envelope with that message; the response is identical for
every server state — the registry lookup is never reached — and the server
is unchanged. -/
theorem tool_execute_requires_name (server : MCPServer) (message : PyDict)
    (entries : PyDict)
    (hm : pyGet message "method" = PyVal.str "tool.execute")
    (hp : pyGetD message "params" (PyVal.dict []) = PyVal.dict entries)
    (hname : pyFalsy (pyGet entries "name") = true) :
    (handle_message server message).1
      = error_response "Tool name is required" "internal_error"
          (pyGet message "id") ∧
    pyGet (handle_message server message).1 "success" = PyVal.bool false ∧
    pyGet (handle_message server message).1 "error"
      = PyVal.dict
          [("code", PyVal.str "internal_error"),
           ("message", PyVal.str "Tool name is required")] ∧
    (handle_message server message).2 = server ∧
    (∀ server2 : MCPServer,
      (handle_message server2 message).1
        = (handle_message server message).1) := by
  have hexec : ∀ sv : MCPServer,
      handle_tool_execute sv (PyVal.dict entries)
        = Except.error "Tool name is required" := by
    intro sv
    show (if pyFalsy (pyGet entries "name") = true
          then Except.error "Tool name is required"
          else _) = Except.error "Tool name is required"
    rw [if_pos hname]
  have hroute : ∀ sv : MCPServer,
      route_method sv (pyGet message "method")
          (pyGetD message "params" (PyVal.dict []))
        = RouteResult.exn "Tool name is required" := by
    intro sv
    rw [hm, hp]
    have hstep : route_method sv (PyVal.str "tool.execute")
        (PyVal.dict entries)
        = (match handle_tool_execute sv (PyVal.dict entries) with
           | Except.ok v => RouteResult.ok v sv
           | Except.error e => RouteResult.exn e) := rfl
    rw [hstep, hexec sv]
  have hresp : ∀ sv : MCPServer,
      handle_message sv message
        = (error_response "Tool name is required" "internal_error"
            (pyGet message "id"), sv) := by
    intro sv
    simp only [handle_message, hroute sv]
  refine ⟨by rw [hresp server], ?_, ?_, by rw [hresp server], ?_⟩
  · rw [hresp server]
    exact error_response_get_success _ _ _
  · rw [hresp server]
    exact error_response_get_error _ _ _
  · intro server2
    rw [hresp server, hresp server2]

/-- Witness for C10: a `tool.execute` message carrying params without any
`name` field yields the `internal_error` envelope with message
`"Tool name is required"`, with no id echoed (none was sent), and the
response does not depend on the server. -/
theorem tool_execute_requires_name_witness :
    (handle_message freshServer noNameMessage).1
      = [("success", PyVal.bool false),
         ("error", PyVal.dict
           [("code", PyVal.str "internal_error"),
            ("message", PyVal.str "Tool name is required")])] ∧
    (handle_message readyServer noNameMessage).1
      = (handle_message freshServer noNameMessage).1 := by
  obtain ⟨h1, _, _, _, h5⟩ :=
    tool_execute_requires_name freshServer noNameMessage
      [("parameters", PyVal.dict [])] rfl rfl rfl
  exact ⟨h1, h5 readyServer⟩

end MCPSpec
